import Mathlib

/-! Shallow embedding of `src/services/cua_engine/workflow_executor.py`
(class `WorkflowExecutor` and class `WorkflowExecutionContext`).

Modelling conventions:
* Python dictionaries with a fixed set of keys become structures whose
  fields are `Option`-valued when the corresponding key may be absent
  (`d.get(k, default)` becomes `field.getD default`; a key that is only
  written on some paths becomes an `Option` field that is `none` on the
  other paths).
* The two registries `self.active_workflows` and `self.workflow_results`
  are Python dicts keyed by workflow id; they become association lists
  with `alGet` / `alInsert` / `alRemove` mirroring `d[k]`, `d[k] = v`
  and `del d[k]`.
* `time.time()` readings are inputs: `execute_workflow` takes the start
  reading and the terminal reading as parameters (the two terminal
  readings in the source, lines 102 and 115, are modelled as one
  instant), and durations are exact rationals.
* The awaited action call of an attempt (`self._mock_step_execution`,
  explicitly a placeholder to be replaced by a real implementation, and any
  exception it may raise) is a parameter `act`: for each attempt index
  it yields either `.error e` (the raised exception text, caught at line
  166) or `.ok dur` (success, with the measured execution time of line
  155).  The payload keys the mock merges into a successful result
  (`action`, `result`, ...) are not modelled: no claim mentions them.
* `asyncio.sleep(delay)` inside the retry loop is recorded in an output
  trace of the delays slept, in order.
-/

/-- Python `step.retry_policy`: a dict read with `.get` at lines 143 and 144.
Keys the code never reads (`initial_delay`, `backoff_multiplier`) are kept so
that claims about them can be stated. -/
structure RetryPolicy where
  max_retries : Option Nat := none
  retry_delay : Option ℚ := none
  initial_delay : Option ℚ := none
  backoff_multiplier : Option ℚ := none
  deriving DecidableEq, Repr

/-- A workflow step as the code reads it: `step.action_type`,
`getattr(step, 'id', ...)` (line 71), `getattr(step, 'dependencies', [])`
(line 235), `step.parameters.get("critical", True)` (lines 78 and 94, the only
parameter key the executor itself reads), and `step.retry_policy` (line 142). -/
structure Step where
  id : Option String := none
  action_type : String := ""
  dependencies : List String := []
  critical : Option Bool := none
  retry_policy : RetryPolicy := {}
  deriving DecidableEq, Repr

/-- A step-result dict as appended to `results`.  The success path (lines
157-161 plus the tagging at 70-71) writes `success`, `attempt`,
`execution_time`, `step_index`, `step_id`; the exhaustion path (lines 178-183)
writes `success`, `error`, `attempts`, `execution_time`; the exception path
(lines 85-91) writes `step_index`, `step_id`, `success`, `error`,
`execution_time`.  Note the source uses the key `attempt` on the success path
but `attempts` on the exhaustion path; both are therefore fields here. -/
structure StepResult where
  step_index : Option Nat := none
  step_id : Option String := none
  success : Bool := false
  attempt : Option Nat := none
  attempts : Option Nat := none
  error : Option String := none
  execution_time : ℚ := 0
  deriving DecidableEq, Repr

/-- The workflow object consumed by `execute_workflow`: `workflow.id`,
`workflow.name`, `workflow.actions`. -/
structure Workflow where
  id : String := ""
  name : String := ""
  actions : List Step := []
  deriving DecidableEq, Repr

/-- Python class `WorkflowExecutionContext` (lines 305-314). -/
structure WorkflowExecutionContext where
  workflow_id : String
  workflow : Workflow
  start_time : ℚ
  current_step : Nat := 0
  total_retries : Nat := 0
  deriving DecidableEq, Repr

/-- The `workflow_result` dict built at lines 104-118; the `metadata` sub-dict
is inlined as the last three fields. -/
structure WorkflowResult where
  workflow_id : String
  workflow_name : String
  success : Bool
  success_rate : ℚ
  total_steps : Nat
  successful_steps : Nat
  execution_time : ℚ
  step_results : List StepResult
  start_time : ℚ
  end_time : ℚ
  retry_attempts : Nat
  deriving DecidableEq, Repr

/-- The mutable attributes of class `WorkflowExecutor` (lines 18-21). -/
structure WorkflowExecutor where
  active_workflows : List (String × WorkflowExecutionContext) := []
  workflow_results : List (String × WorkflowResult) := []
  is_initialized : Bool := false
  deriving DecidableEq, Repr

/-- The status dict returned by `get_workflow_status` (lines 258-264 and
269-274): keys written only on one branch are `Option` fields. -/
structure StatusPayload where
  workflow_id : String
  status : String
  start_time : Option ℚ := none
  current_step : Option Nat := none
  total_steps : Option Nat := none
  success : Option Bool := none
  execution_time : Option ℚ := none
  deriving DecidableEq, Repr

/-- Dict lookup `d[k]` / `k in d` for an association list. -/
def alGet {α : Type} (k : String) (l : List (String × α)) : Option α :=
  (l.find? (fun p => p.1 = k)).map (fun p => p.2)

/-- Dict deletion `del d[k]` (also models the conditional
`if k in d: del d[k]`, a no-op when absent). -/
def alRemove {α : Type} (k : String) (l : List (String × α)) : List (String × α) :=
  l.filter (fun p => p.1 ≠ k)

/-- Dict assignment `d[k] = v`. -/
def alInsert {α : Type} (k : String) (v : α) (l : List (String × α)) :
    List (String × α) :=
  (k, v) :: alRemove k l

/-- A single-quote character, used by the Python `repr` of a string list. -/
def pyQuote : String := String.singleton (Char.ofNat 39)

/-- Python `f"{deps}"` for a list of strings, as interpolated into the
dependency error message at line 66. -/
def pyStrListRepr (l : List String) : String :=
  "[" ++ String.intercalate (", ") (l.map (fun s => pyQuote ++ s ++ pyQuote)) ++ "]"

/-- Line 71 / 87: `getattr(step, 'id', f"step_{i}")`. -/
def stepIdAt (i : Nat) (step : Step) : String :=
  step.id.getD ("step_" ++ toString i)

/-- The dict returned at lines 178-183 when all attempts failed.  Its key is
`attempts` (not `attempt`); `last_error` is always set when this point is
reached, since the loop body runs at least once. -/
def exhaustedResult (max_retries : Nat) (last_error : Option String) : StepResult :=
  { success := false, error := last_error, attempts := some (max_retries + 1),
    execution_time := 0 }

/-- The retry loop of `_execute_step_with_retry` (lines 148-175).
Arguments: current 0-based `attempt`, attempts `remaining` (the loop runs
`range(max_retries + 1)`), current `delay`, and `last_error`.  Returns the
step result, the trace of delays slept (line 174), and the number of
`execution_context.total_retries` increments (line 168, one per failed
attempt). -/
def retryGo (act : Nat → Except String ℚ) (max_retries : Nat) :
    Nat → Nat → ℚ → Option String → StepResult × List ℚ × Nat
  | _, 0, _, last_error => (exhaustedResult max_retries last_error, [], 0)
  | attempt, remaining + 1, delay, _ =>
      match act attempt with
      | .ok dur =>
          ({ success := true, attempt := some (attempt + 1),
             execution_time := dur }, [], 0)
      | .error e =>
          if attempt < max_retries then
            let r := retryGo act max_retries (attempt + 1) remaining (delay * 2) (some e)
            (r.1, delay :: r.2.1, r.2.2 + 1)
          else
            let r := retryGo act max_retries (attempt + 1) remaining delay (some e)
            (r.1, r.2.1, r.2.2 + 1)

/-- `_execute_step_with_retry` (lines 140-183): reads
`retry_policy.get("max_retries", 3)` and `retry_policy.get("retry_delay", 1)`
and runs the attempt loop.  The multiplier applied at line 175 is the literal
`2`; no other policy key is consulted. -/
def execute_step_with_retry (act : Nat → Except String ℚ) (step : Step) :
    StepResult × List ℚ × Nat :=
  let max_retries := step.retry_policy.max_retries.getD 3
  let retry_delay := step.retry_policy.retry_delay.getD 1
  retryGo act max_retries 0 (max_retries + 1) retry_delay none

/-- Lines 241-244: the set of `step_id` values of the previous results that
succeeded (`result.get("step_id")`, hence `Option String` values). -/
def completed_step_ids (previous_results : List StepResult) : List (Option String) :=
  (previous_results.filter (fun r => r.success)).map (fun r => r.step_id)

/-- `_check_step_dependencies` (lines 233-251): allow iff the dependency list
is empty or every dependency id appears among the successful previous
results. -/
def check_step_dependencies (step : Step) (previous_results : List StepResult) :
    Bool :=
  step.dependencies.all (fun dep => (completed_step_ids previous_results).contains (some dep))

/-- The dict appended at lines 85-91 when the dependency check raised at
line 66. -/
def depFailResult (i : Nat) (sid : String) (deps : List String) : StepResult :=
  { step_index := some i, step_id := some sid, success := false,
    error := some ("Step dependencies not met: " ++ pyStrListRepr deps),
    execution_time := 0 }

/-- The dict appended at lines 85-91 when the critical-failure exception was
raised at line 79. -/
def critFailResult (i : Nat) (sid : String) (action_type : String) : StepResult :=
  { step_index := some i, step_id := some sid, success := false,
    error := some ("Critical step failed: " ++ action_type),
    execution_time := 0 }

/-- The step loop of `execute_workflow` (lines 60-95).  `prior` is the
`results` list accumulated before the steps still to run (the dependency
check at line 65 reads it); the function returns the results the remaining
steps append, plus the total retry increments.  A critical failure appends
the step result and then the caught-exception dict for the same step and
breaks (lines 73, 79, 83-95); a dependency denial appends only the
caught-exception dict and breaks when critical (lines 66, 83-95); a
non-critical failure just continues (line 81). -/
def run_steps_aux (act : Nat → Nat → Except String ℚ) :
    Nat → List Step → List StepResult → Nat → List StepResult × Nat
  | _, [], _, retries => ([], retries)
  | i, step :: rest, prior, retries =>
      let sid := stepIdAt i step
      let crit := step.critical.getD true
      if check_step_dependencies step prior then
        let er := execute_step_with_retry (act i) step
        let r := { er.1 with step_index := some i, step_id := some sid }
        if !r.success && crit then
          ([r, critFailResult i sid step.action_type], retries + er.2.2)
        else
          let t := run_steps_aux act (i + 1) rest (prior ++ [r]) (retries + er.2.2)
          (r :: t.1, t.2)
      else
        let dfr := depFailResult i sid step.dependencies
        if crit then
          ([dfr], retries)
        else
          let t := run_steps_aux act (i + 1) rest (prior ++ [dfr]) retries
          (dfr :: t.1, t.2)

/-- The full `results` list and retry count of a run (`results = []` at
line 59, then the loop). -/
def run_steps (act : Nat → Nat → Except String ℚ) (steps : List Step) :
    List StepResult × Nat :=
  run_steps_aux act 0 steps [] 0

/-- `execute_workflow` (lines 39-138).  Returns the executor state after the
call together with `.ok result` for a normal return or `.error msg` for a
raised exception.  The only reachable raise is the uninitialized check at
lines 41-42 (the loop catches every exception a step produces, and the mock
executor and dependency check raise nothing else). -/
def execute_workflow (act : Nat → Nat → Except String ℚ)
    (self : WorkflowExecutor) (workflow : Workflow) (start_time now : ℚ) :
    WorkflowExecutor × Except String WorkflowResult :=
  if self.is_initialized = false then
    (self, .error ("Workflow executor not initialized"))
  else
    let ctx : WorkflowExecutionContext :=
      { workflow_id := workflow.id, workflow := workflow, start_time := start_time }
    let self1 := { self with
      active_workflows := alInsert workflow.id ctx self.active_workflows }
    let rs := run_steps act workflow.actions
    let results := rs.1
    let successful_steps := (results.filter (fun r => r.success)).length
    let total_steps := results.length
    let success_rate : ℚ :=
      if total_steps > 0 then (successful_steps : ℚ) / (total_steps : ℚ) else 0
    let wr : WorkflowResult :=
      { workflow_id := workflow.id, workflow_name := workflow.name,
        success := decide ((0.8 : ℚ) ≤ success_rate),
        success_rate := success_rate,
        total_steps := total_steps,
        successful_steps := successful_steps,
        execution_time := now - start_time,
        step_results := results,
        start_time := start_time, end_time := now,
        retry_attempts := ctx.total_retries + rs.2 }
    let self2 := { self1 with
      workflow_results := alInsert workflow.id wr self1.workflow_results,
      active_workflows := alRemove workflow.id self1.active_workflows }
    (self2, .ok wr)

/-- `get_workflow_status` (lines 253-276).  The completed branch always
writes the literal string `"completed"` (line 271). -/
def get_workflow_status (self : WorkflowExecutor) (workflow_id : String) :
    Option StatusPayload :=
  match alGet workflow_id self.active_workflows with
  | some context =>
      some { workflow_id := workflow_id, status := "running",
             start_time := some context.start_time,
             current_step := some context.current_step,
             total_steps := some context.workflow.actions.length }
  | none =>
      match alGet workflow_id self.workflow_results with
      | some result =>
          some { workflow_id := workflow_id, status := "completed",
                 success := some result.success,
                 execution_time := some result.execution_time }
      | none => none

/-- `cancel_workflow` (lines 278-285). -/
def cancel_workflow (self : WorkflowExecutor) (workflow_id : String) :
    WorkflowExecutor × Bool :=
  if (alGet workflow_id self.active_workflows).isSome then
    ({ self with active_workflows := alRemove workflow_id self.active_workflows },
     true)
  else
    (self, false)

/-- The registry writes a run performs after it has been registered: the
normal terminal transition stores the result and deregisters (lines 121-125)
and the exceptional one only deregisters (lines 135-136).  While steps run,
the run touches neither registry (results accumulate in a local list). -/
inductive RunOp where
  | finalize (wr : WorkflowResult)
  | cleanupError
  deriving DecidableEq, Repr

/-- Effect of one terminal registry write of the run owning `wid`. -/
def apply_run_op (wid : String) (self : WorkflowExecutor) : RunOp → WorkflowExecutor
  | .finalize wr =>
      { self with
        workflow_results := alInsert wid wr self.workflow_results,
        active_workflows := alRemove wid self.active_workflows }
  | .cleanupError =>
      { self with active_workflows := alRemove wid self.active_workflows }

/-- Effect of a sequence of registry writes by the run owning `wid`. -/
def apply_run_ops (wid : String) (self : WorkflowExecutor) :
    List RunOp → WorkflowExecutor
  | [] => self
  | op :: ops => apply_run_ops wid (apply_run_op wid self op) ops

/-! Registry lemmas -/

theorem alGet_insert_self {α : Type} (k : String) (v : α) (l : List (String × α)) :
    alGet k (alInsert k v l) = some v := by
  simp [alGet, alInsert, List.find?]

theorem alGet_remove_self {α : Type} (k : String) (l : List (String × α)) :
    alGet k (alRemove k l) = none := by
  have h : List.find? (fun p => decide (p.1 = k)) (alRemove k l) = none := by
    rw [List.find?_eq_none]
    intro p hp
    simp only [alRemove, List.mem_filter, decide_not] at hp
    simpa using hp.2
  simp only [alGet, h]
  rfl

theorem alGet_none_iff_isSome_false {α : Type} (k : String) (l : List (String × α)) :
    (alGet k l).isSome = false ↔ alGet k l = none := by
  cases alGet k l <;> simp

/-! The retry loop on a permanently failing action -/

/-- On an action that fails at every attempt, the retry loop exhausts its
remaining attempts: it returns the exhausted-result dict carrying the last
error, sleeps once per non-final attempt with the delay doubling each time,
and bumps the retry counter once per attempt. -/
theorem retryGo_allFail (f : Nat → String) (max_retries : Nat) :
    ∀ remaining attempt delay last_error, attempt + remaining = max_retries →
      retryGo (fun a => .error (f a)) max_retries attempt (remaining + 1) delay last_error =
        (exhaustedResult max_retries (some (f max_retries)),
         (List.range remaining).map (fun j => delay * 2 ^ j),
         remaining + 1) := by
  intro remaining
  induction remaining with
  | zero =>
      intro attempt delay last_error h
      simp only [Nat.add_zero] at h
      subst h
      simp [retryGo]
  | succ n ih =>
      intro attempt delay last_error h
      have hlt : attempt < max_retries := by omega
      have hrec := ih (attempt + 1) (delay * 2) (some (f attempt)) (by omega)
      have hstep : retryGo (fun a => .error (f a)) max_retries attempt (n + 1 + 1) delay last_error =
          if attempt < max_retries then
            ((retryGo (fun a => Except.error (f a)) max_retries (attempt + 1) (n + 1) (delay * 2) (some (f attempt))).1,
             delay :: (retryGo (fun a => Except.error (f a)) max_retries (attempt + 1) (n + 1) (delay * 2) (some (f attempt))).2.1,
             (retryGo (fun a => Except.error (f a)) max_retries (attempt + 1) (n + 1) (delay * 2) (some (f attempt))).2.2 + 1)
          else
            ((retryGo (fun a => Except.error (f a)) max_retries (attempt + 1) (n + 1) delay (some (f attempt))).1,
             (retryGo (fun a => Except.error (f a)) max_retries (attempt + 1) (n + 1) delay (some (f attempt))).2.1,
             (retryGo (fun a => Except.error (f a)) max_retries (attempt + 1) (n + 1) delay (some (f attempt))).2.2 + 1) := rfl
      rw [hstep, if_pos hlt, hrec]
      rw [Prod.mk.injEq, Prod.mk.injEq]
      refine ⟨rfl, ?_, rfl⟩
      rw [List.range_succ_eq_map, List.map_cons, List.map_map]
      congr 1
      · simp
      · apply List.map_congr_left
        intro j _
        simp only [Function.comp_apply, pow_succ]
        ring

/-! The step loop -/

/-- Abbreviation for the step result after the tagging assignments at
lines 70-71. -/
def taggedResult (act : Nat → Except String ℚ) (i : Nat) (step : Step) : StepResult :=
  { (execute_step_with_retry act step).1 with
    step_index := some i, step_id := some (stepIdAt i step) }

/-- One unfolding of the step loop on a non-empty step list. -/
theorem run_steps_aux_cons (act : Nat → Nat → Except String ℚ) (i : Nat) (step : Step)
    (rest : List Step) (prior : List StepResult) (retries : Nat) :
    run_steps_aux act i (step :: rest) prior retries =
      (if check_step_dependencies step prior then
        if !(taggedResult (act i) i step).success && step.critical.getD true then
          ([taggedResult (act i) i step,
            critFailResult i (stepIdAt i step) step.action_type],
           retries + (execute_step_with_retry (act i) step).2.2)
        else
          (taggedResult (act i) i step ::
             (run_steps_aux act (i + 1) rest (prior ++ [taggedResult (act i) i step])
               (retries + (execute_step_with_retry (act i) step).2.2)).1,
           (run_steps_aux act (i + 1) rest (prior ++ [taggedResult (act i) i step])
             (retries + (execute_step_with_retry (act i) step).2.2)).2)
      else
        if step.critical.getD true then
          ([depFailResult i (stepIdAt i step) step.dependencies], retries)
        else
          (depFailResult i (stepIdAt i step) step.dependencies ::
             (run_steps_aux act (i + 1) rest
               (prior ++ [depFailResult i (stepIdAt i step) step.dependencies]) retries).1,
           (run_steps_aux act (i + 1) rest
             (prior ++ [depFailResult i (stepIdAt i step) step.dependencies]) retries).2)) := rfl

/-- When every result a step-list prefix produces is successful, the loop
neither breaks nor drops steps: running the concatenation first runs the
prefix, then continues on the remainder with the index, the accumulated
results and the retry counter advanced accordingly. -/
theorem run_steps_aux_all_success_append (act : Nat → Nat → Except String ℚ)
    (a : List Step) :
    ∀ i prior n b,
      (∀ r ∈ (run_steps_aux act i a prior n).1, r.success = true) →
      run_steps_aux act i (a ++ b) prior n =
        ((run_steps_aux act i a prior n).1 ++
           (run_steps_aux act (i + a.length) b (prior ++ (run_steps_aux act i a prior n).1)
             (run_steps_aux act i a prior n).2).1,
         (run_steps_aux act (i + a.length) b (prior ++ (run_steps_aux act i a prior n).1)
           (run_steps_aux act i a prior n).2).2) := by
  induction a with
  | nil =>
      intro i prior n b _
      simp [run_steps_aux]
  | cons s a ih =>
      intro i prior n b h
      by_cases hdep : check_step_dependencies s prior = true
      · have hmem : taggedResult (act i) i s ∈ (run_steps_aux act i (s :: a) prior n).1 := by
          rw [run_steps_aux_cons, if_pos hdep]
          by_cases hbr : (!(taggedResult (act i) i s).success && s.critical.getD true) = true
          · rw [if_pos hbr]; exact List.mem_cons_self _ _
          · rw [if_neg hbr]; exact List.mem_cons_self _ _
        have hr : (taggedResult (act i) i s).success = true := h _ hmem
        have hbr : (!(taggedResult (act i) i s).success && s.critical.getD true) = false := by
          simp [hr]
        have htail : ∀ r ∈ (run_steps_aux act (i + 1) a (prior ++ [taggedResult (act i) i s])
            (n + (execute_step_with_retry (act i) s).2.2)).1, r.success = true := by
          intro r hrm
          apply h
          rw [run_steps_aux_cons, if_pos hdep, hbr]
          exact List.mem_cons_of_mem _ hrm
        have hih := ih (i + 1) (prior ++ [taggedResult (act i) i s])
          (n + (execute_step_with_retry (act i) s).2.2) b htail
        have hfneg : ¬ (false = true) := by simp
        rw [List.cons_append, run_steps_aux_cons, if_pos hdep, hbr,
          if_neg hfneg, hih,
          run_steps_aux_cons, if_pos hdep, hbr, if_neg hfneg]
        simp only [List.length_cons, List.cons_append, List.append_assoc,
          List.singleton_append, Prod.mk.injEq]
        rw [Nat.add_comm a.length 1, ← Nat.add_assoc]
        exact ⟨rfl, rfl⟩
      · exfalso
        have hmem : depFailResult i (stepIdAt i s) s.dependencies ∈
            (run_steps_aux act i (s :: a) prior n).1 := by
          rw [run_steps_aux_cons, if_neg hdep]
          by_cases hcrit : s.critical.getD true = true
          · rw [if_pos hcrit]; exact List.mem_cons_self _ _
          · rw [if_neg hcrit]; exact List.mem_cons_self _ _
        have := h _ hmem
        simp [depFailResult] at this

/-- When every result a step list produces is successful, it contributes
exactly one result per step. -/
theorem run_steps_aux_all_success_length (act : Nat → Nat → Except String ℚ)
    (a : List Step) :
    ∀ i prior n,
      (∀ r ∈ (run_steps_aux act i a prior n).1, r.success = true) →
      (run_steps_aux act i a prior n).1.length = a.length := by
  induction a with
  | nil =>
      intro i prior n _
      simp [run_steps_aux]
  | cons s a ih =>
      intro i prior n h
      by_cases hdep : check_step_dependencies s prior = true
      · have hmem : taggedResult (act i) i s ∈ (run_steps_aux act i (s :: a) prior n).1 := by
          rw [run_steps_aux_cons, if_pos hdep]
          by_cases hbr : (!(taggedResult (act i) i s).success && s.critical.getD true) = true
          · rw [if_pos hbr]; exact List.mem_cons_self _ _
          · rw [if_neg hbr]; exact List.mem_cons_self _ _
        have hr : (taggedResult (act i) i s).success = true := h _ hmem
        have hbr : (!(taggedResult (act i) i s).success && s.critical.getD true) = false := by
          simp [hr]
        have htail : ∀ r ∈ (run_steps_aux act (i + 1) a (prior ++ [taggedResult (act i) i s])
            (n + (execute_step_with_retry (act i) s).2.2)).1, r.success = true := by
          intro r hrm
          apply h
          rw [run_steps_aux_cons, if_pos hdep, hbr]
          exact List.mem_cons_of_mem _ hrm
        have hfneg : ¬ (false = true) := by simp
        rw [run_steps_aux_cons, if_pos hdep, hbr, if_neg hfneg]
        simp only [List.length_cons]
        rw [ih (i + 1) (prior ++ [taggedResult (act i) i s])
          (n + (execute_step_with_retry (act i) s).2.2) htail]
      · exfalso
        have hmem : depFailResult i (stepIdAt i s) s.dependencies ∈
            (run_steps_aux act i (s :: a) prior n).1 := by
          rw [run_steps_aux_cons, if_neg hdep]
          by_cases hcrit : s.critical.getD true = true
          · rw [if_pos hcrit]; exact List.mem_cons_self _ _
          · rw [if_neg hcrit]; exact List.mem_cons_self _ _
        have := h _ hmem
        simp [depFailResult] at this

/-- `execute_step_with_retry` on a permanently failing action: exhausts
`max_retries + 1` attempts (policy key `max_retries`, default 3), sleeping the
`retry_delay` (default 1) doubled after each non-final failure. -/
theorem execute_step_with_retry_allFail (f : Nat → String) (step : Step) :
    execute_step_with_retry (fun a => .error (f a)) step =
      (exhaustedResult (step.retry_policy.max_retries.getD 3)
         (some (f (step.retry_policy.max_retries.getD 3))),
       (List.range (step.retry_policy.max_retries.getD 3)).map
         (fun j => step.retry_policy.retry_delay.getD 1 * 2 ^ j),
       step.retry_policy.max_retries.getD 3 + 1) := by
  unfold execute_step_with_retry
  exact retryGo_allFail f _ _ 0 _ none (Nat.zero_add _)

/-! Concrete inputs used by counterexamples and witnesses -/

/-- An action oracle that fails at every attempt with a distinct message. -/
def failAct1 : Nat → Except String ℚ := fun a => Except.error ("boom" ++ toString a)

/-- A per-step action oracle that fails at every attempt. -/
def failAct : Nat → Nat → Except String ℚ := fun _ a => Except.error ("boom" ++ toString a)

/-- A per-step action oracle that always succeeds instantly. -/
def okAct : Nat → Nat → Except String ℚ := fun _ _ => Except.ok 0

/-- An executor on which `initialize` has completed. -/
def execInit : WorkflowExecutor := { is_initialized := true }

/-- Step results of a normal `execute_workflow` return (empty on a raise). -/
def okStepResults (p : WorkflowExecutor × Except String WorkflowResult) :
    List StepResult :=
  match p.2 with
  | .ok r => r.step_results
  | .error _ => []

/-- Step used by the C3 counterexample: `max_retries = 0`. -/
def stepC3 : Step := { action_type := "click", retry_policy := { max_retries := some 0 } }

/-- Step used by the C3 witness: `max_retries = 2`. -/
def stepC3w : Step := { action_type := "click", retry_policy := { max_retries := some 2 } }

/-- C3: the claim says the exhausted-retries result carries `attempt = N + 1`.
On the code the exhausted-retries dict has no `attempt` key at all: with
`max_retries = 0` and a permanently failing action the result satisfies
`attempt = none` (so not `some 1`); the count is under the key `attempts`. -/
theorem C3_counterexample :
    (execute_step_with_retry failAct1 stepC3).1.attempt = none ∧
    ¬ ((execute_step_with_retry failAct1 stepC3).1.attempt = some 1) ∧
    (execute_step_with_retry failAct1 stepC3).1.attempts = some 1 := by
  decide

/-- C3 (amended): for every step whose action fails on every attempt and whose
retry policy has `max_retries = N`, the retry controller invokes the action
exactly `N + 1` times (witnessed by the `total_retries` increment count, one
per failed attempt) and returns a result with `success = false`, the attempt
count recorded under the key `attempts` as `N + 1` (the `attempt` key is
absent), `error` equal to the last attempt error, and `execution_time = 0`. -/
theorem C3_amended (f : Nat → String) (step : Step) (N : Nat)
    (hN : step.retry_policy.max_retries = some N) :
    (execute_step_with_retry (fun a => .error (f a)) step).1.success = false ∧
    (execute_step_with_retry (fun a => .error (f a)) step).1.attempt = none ∧
    (execute_step_with_retry (fun a => .error (f a)) step).1.attempts = some (N + 1) ∧
    (execute_step_with_retry (fun a => .error (f a)) step).1.error = some (f N) ∧
    (execute_step_with_retry (fun a => .error (f a)) step).1.execution_time = 0 ∧
    (execute_step_with_retry (fun a => .error (f a)) step).2.2 = N + 1 := by
  have h := execute_step_with_retry_allFail f step
  rw [hN] at h
  simp only [Option.getD_some] at h
  rw [h]
  simp [exhaustedResult]

/-- C3 witness: the amended statement instantiated at a concrete step with
`max_retries = 2` and a concrete failing action. -/
theorem C3_witness :
    (execute_step_with_retry (fun a => .error ("boom" ++ toString a)) stepC3w).1.success = false ∧
    (execute_step_with_retry (fun a => .error ("boom" ++ toString a)) stepC3w).1.attempt = none ∧
    (execute_step_with_retry (fun a => .error ("boom" ++ toString a)) stepC3w).1.attempts = some 3 ∧
    (execute_step_with_retry (fun a => .error ("boom" ++ toString a)) stepC3w).1.error = some ("boom2") ∧
    (execute_step_with_retry (fun a => .error ("boom" ++ toString a)) stepC3w).1.execution_time = 0 ∧
    (execute_step_with_retry (fun a => .error ("boom" ++ toString a)) stepC3w).2.2 = 3 :=
  C3_amended (fun a => "boom" ++ toString a) stepC3w 2 rfl

/-- Step used by the C4 counterexample: `initial_delay = 5`,
`backoff_multiplier = 3`, no `retry_delay` key. -/
def stepC4 : Step :=
  { action_type := "click",
    retry_policy := { max_retries := some 2, initial_delay := some 5,
                      backoff_multiplier := some 3 } }

/-- Step used by the C4 witness. -/
def stepC4w : Step :=
  { action_type := "click",
    retry_policy := { max_retries := some 3, retry_delay := some (1/2),
                      backoff_multiplier := some 7 } }

/-- C4: the claim says the inter-attempt delays follow `d, d*m, d*m^2, ...`
for `initial_delay = d` and `backoff_multiplier = m`.  On the code neither
key is read: with `initial_delay = 5`, `backoff_multiplier = 3` and two
waits, the delays are `[1, 2]` (the `retry_delay` default 1, doubled), not
the `[5, 15]` the claim predicts. -/
theorem C4_counterexample :
    (execute_step_with_retry (fun a => .error ("boom" ++ toString a)) stepC4).2.1 = [1, 2] ∧
    ¬ ((execute_step_with_retry (fun a => .error ("boom" ++ toString a)) stepC4).2.1 = [5, 15]) := by
  have h := execute_step_with_retry_allFail (fun a => "boom" ++ toString a) stepC4
  have h2 : List.range 2 = [0, 1] := rfl
  rw [h]
  simp only [stepC4, Option.getD_some]
  rw [h2]
  norm_num

/-- C4 (amended): for every step whose action fails on every attempt, with
`max_retries = N` and `retry_delay = d` in the retry policy, the waits between
successive failed attempts are `d, d*2, d*4, ...` (the i-th delay is
`d * 2 ^ (i-1)`): the multiplier is the fixed literal 2, and the policy's
`initial_delay` and `backoff_multiplier` entries (arbitrary here) are never
consulted. -/
theorem C4_amended (f : Nat → String) (step : Step) (N : Nat) (d : ℚ)
    (hN : step.retry_policy.max_retries = some N)
    (hd : step.retry_policy.retry_delay = some d) :
    (execute_step_with_retry (fun a => .error (f a)) step).2.1 =
      (List.range N).map (fun j => d * 2 ^ j) := by
  have h := execute_step_with_retry_allFail f step
  rw [hN, hd] at h
  simp only [Option.getD_some] at h
  rw [h]

/-- C4 witness: the amended statement at a concrete step with
`retry_delay = 1/2`, `max_retries = 3` and a `backoff_multiplier` of 7 that
the delays ignore. -/
theorem C4_witness :
    (execute_step_with_retry (fun a => .error ("boom" ++ toString a)) stepC4w).2.1 =
      (List.range 3).map (fun j => (1/2 : ℚ) * 2 ^ j) ∧
    (List.range 3).map (fun j => (1/2 : ℚ) * 2 ^ j) = [1/2, 1, 2] :=
  ⟨C4_amended (fun a => "boom" ++ toString a) stepC4w 3 (1/2) rfl rfl, by
    have h3 : List.range 3 = [0, 1, 2] := rfl
    rw [h3]
    norm_num⟩

/-! Structure of `execute_workflow` -/

/-- The `WorkflowResult` a normal `execute_workflow` return builds (lines
97-118), as a function of the action oracle, the workflow and the two clock
readings.  `retry_attempts` is `ctx.total_retries + rs.2` with
`ctx.total_retries = 0` at context creation. -/
def workflowResultOf (act : Nat → Nat → Except String ℚ) (workflow : Workflow)
    (start_time now : ℚ) : WorkflowResult :=
  let rs := run_steps act workflow.actions
  let successful_steps := (rs.1.filter (fun r => r.success)).length
  let total_steps := rs.1.length
  let success_rate : ℚ :=
    if total_steps > 0 then (successful_steps : ℚ) / (total_steps : ℚ) else 0
  { workflow_id := workflow.id, workflow_name := workflow.name,
    success := decide ((0.8 : ℚ) ≤ success_rate),
    success_rate := success_rate,
    total_steps := total_steps,
    successful_steps := successful_steps,
    execution_time := now - start_time,
    step_results := rs.1,
    start_time := start_time, end_time := now,
    retry_attempts := 0 + rs.2 }

/-- On an initialized executor, `execute_workflow` returns normally: the run
is registered (line 56) and then deregistered at the terminal transition
(lines 124-125), the result is stored (line 121), and the built
`WorkflowResult` is returned. -/
theorem execute_workflow_eq_ok (act : Nat → Nat → Except String ℚ)
    (self : WorkflowExecutor) (workflow : Workflow) (start_time now : ℚ)
    (hin : self.is_initialized = true) :
    execute_workflow act self workflow start_time now =
      ({ self with
          active_workflows :=
            alRemove workflow.id
              (alInsert workflow.id
                { workflow_id := workflow.id, workflow := workflow,
                  start_time := start_time }
                self.active_workflows),
          workflow_results :=
            alInsert workflow.id (workflowResultOf act workflow start_time now)
              self.workflow_results },
       Except.ok (workflowResultOf act workflow start_time now)) := by
  unfold execute_workflow workflowResultOf
  rw [if_neg (by simp [hin])]

/-- On an uninitialized executor, `execute_workflow` raises at lines 41-42
before the run context is created: the state is returned unchanged. -/
theorem execute_workflow_eq_error (act : Nat → Nat → Except String ℚ)
    (self : WorkflowExecutor) (workflow : Workflow) (start_time now : ℚ)
    (hin : self.is_initialized = false) :
    execute_workflow act self workflow start_time now =
      (self, Except.error ("Workflow executor not initialized")) := by
  unfold execute_workflow
  rw [if_pos hin]

/-! C1: critical failure truncates the run -/

/-- Workflow used by the C1 counterexample: one critical step (index `k = 0`)
whose action always fails (`max_retries = 0`). -/
def wfC1 : Workflow :=
  { id := "w1", name := "wf",
    actions := [{ action_type := "open_application",
                  retry_policy := { max_retries := some 0 } }] }

/-- C1: the claim predicts exactly `k + 1` step results when the critical
step at index `k` fails (here `k = 0`, so 1).  On the code the failing
critical step is appended twice — once as its retry result (line 73) and once
as the caught critical-failure dict (lines 85-91) — so the list has 2
entries. -/
theorem C1_counterexample :
    (okStepResults (execute_workflow failAct execInit wfC1 0 0)).length = 2 ∧
    ¬ ((okStepResults (execute_workflow failAct execInit wfC1 0 0)).length = 0 + 1) := by
  decide

/-- C1 (amended): for every workflow split as `pre ++ s :: post` where every
result the prefix produces is successful, the step `s` (at index
`k = pre.length`) passes its dependency check, its retried execution fails,
and it is critical, the loop terminates right after `s`: the result list is
the prefix results followed by exactly two entries for `s` — its failed step
result and the synthesized critical-failure record — so it has `k + 2`
entries (not `k + 1`: step `k` is duplicated), and the steps of `post`
contribute none. -/
theorem C1_amended (act : Nat → Nat → Except String ℚ) (pre post : List Step) (s : Step)
    (hpre : ∀ r ∈ (run_steps act pre).1, r.success = true)
    (hdep : check_step_dependencies s (run_steps act pre).1 = true)
    (hfail : (execute_step_with_retry (act pre.length) s).1.success = false)
    (hcrit : s.critical.getD true = true) :
    (run_steps act (pre ++ s :: post)).1 =
      (run_steps act pre).1 ++
        [taggedResult (act pre.length) pre.length s,
         critFailResult pre.length (stepIdAt pre.length s) s.action_type] ∧
    (run_steps act (pre ++ s :: post)).1.length = pre.length + 2 := by
  unfold run_steps at hpre hdep ⊢
  have hlen := run_steps_aux_all_success_length act pre 0 [] 0 hpre
  have happ := run_steps_aux_all_success_append act pre 0 [] 0 (s :: post) hpre
  rw [happ]
  simp only [Nat.zero_add, List.nil_append] at *
  rw [run_steps_aux_cons, if_pos hdep]
  have hsf : (taggedResult (act pre.length) pre.length s).success = false := hfail
  have hcond : (!(taggedResult (act pre.length) pre.length s).success &&
      s.critical.getD true) = true := by
    rw [hsf, hcrit]
    rfl
  rw [if_pos hcond]
  refine ⟨rfl, ?_⟩
  rw [List.length_append, hlen]
  rfl

/-- Step and trailing step used by the C1 witness. -/
def stepC1w : Step := { action_type := "click", retry_policy := { max_retries := some 1 } }

/-- A step that would have run after the critical failure. -/
def stepC1post : Step := { action_type := "type" }

/-- C1 witness: the amended statement instantiated with an empty prefix, a
critical always-failing step and one pending step after it. -/
theorem C1_witness :
    (run_steps failAct ([] ++ stepC1w :: [stepC1post])).1 =
      (run_steps failAct []).1 ++
        [taggedResult (failAct 0) 0 stepC1w,
         critFailResult 0 (stepIdAt 0 stepC1w) stepC1w.action_type] ∧
    (run_steps failAct ([] ++ stepC1w :: [stepC1post])).1.length = List.length ([] : List Step) + 2 :=
  C1_amended failAct [] [stepC1post] stepC1w
    (by intro r hr; simp [run_steps, run_steps_aux] at hr)
    (by decide)
    (by decide)
    rfl

/-! C5: dependency denial -/

/-- Workflow used by the C5 counterexample: a single step depending on an id
that has no successful result. -/
def wfC5 : Workflow :=
  { id := "w5", name := "wf",
    actions := [{ action_type := "click", dependencies := ["a"] }] }

/-- C5: the claim says a denied step yields `attempt = 0` and
`error = "dependency_not_met"`.  On the code the synthesized dict has no
`attempt` key at all and its error message is
`Step dependencies not met: ['a']`. -/
theorem C5_counterexample :
    (okStepResults (execute_workflow okAct execInit wfC5 0 0)).map (fun r => r.attempt) =
      [none] ∧
    ¬ ((okStepResults (execute_workflow okAct execInit wfC5 0 0)).map (fun r => r.error) =
      [some ("dependency_not_met")]) ∧
    (okStepResults (execute_workflow okAct execInit wfC5 0 0)).map (fun r => r.error) =
      [some ("Step dependencies not met: " ++ pyStrListRepr ["a"])] := by
  decide

/-- C5 (amended): whenever the loop reaches a step `s` (at index `i`, with
results `prior` recorded so far and retry counter `retries`) and some
dependency id `d` of `s` does not appear with success among `prior`, the
denied step never invokes the action oracle: the loop appends in its place
exactly the synthesized record with `success = false`, `execution_time = 0`,
no `attempt` or `attempts` key, and error
`"Step dependencies not met: <dependency list>"`; the record participates in
critical-step abort exactly like an execution failure (critical: the loop
stops there; non-critical: it continues with the record appended). -/
theorem C5_amended (act : Nat → Nat → Except String ℚ) (i : Nat)
    (prior : List StepResult) (retries : Nat) (s : Step) (rest : List Step)
    (d : String) (hd : d ∈ s.dependencies)
    (hmiss : (completed_step_ids prior).contains (some d) = false) :
    run_steps_aux act i (s :: rest) prior retries =
      (if s.critical.getD true then
        ([depFailResult i (stepIdAt i s) s.dependencies], retries)
       else
        (depFailResult i (stepIdAt i s) s.dependencies ::
           (run_steps_aux act (i + 1) rest
             (prior ++ [depFailResult i (stepIdAt i s) s.dependencies]) retries).1,
         (run_steps_aux act (i + 1) rest
           (prior ++ [depFailResult i (stepIdAt i s) s.dependencies]) retries).2)) ∧
    (depFailResult i (stepIdAt i s) s.dependencies).success = false ∧
    (depFailResult i (stepIdAt i s) s.dependencies).attempt = none ∧
    (depFailResult i (stepIdAt i s) s.dependencies).attempts = none ∧
    (depFailResult i (stepIdAt i s) s.dependencies).execution_time = 0 ∧
    (depFailResult i (stepIdAt i s) s.dependencies).error =
      some ("Step dependencies not met: " ++ pyStrListRepr s.dependencies) := by
  have hchk : check_step_dependencies s prior = false := by
    unfold check_step_dependencies
    rw [List.all_eq_false]
    exact ⟨d, hd, by simpa using hmiss⟩
  rw [run_steps_aux_cons, if_neg (by simp [hchk])]
  by_cases hcrit : s.critical.getD true = true
  · rw [if_pos hcrit]
    exact ⟨rfl, rfl, rfl, rfl, rfl, rfl⟩
  · rw [if_neg hcrit]
    exact ⟨rfl, rfl, rfl, rfl, rfl, rfl⟩

/-- Step used by the C5 witness: critical, depending on id `"a"`. -/
def stepC5w : Step := { action_type := "click", dependencies := ["a"] }

/-- A step that would have run after the denied critical step. -/
def stepC5post : Step := { action_type := "type" }

/-- C5 witness: the amended statement instantiated at index 1 with one prior
failed result for step id `"a"`, so the dependency is unmet. -/
theorem C5_witness :
    run_steps_aux failAct 1 [stepC5w, stepC5post]
        [{ step_index := some 0, step_id := some ("a"), success := false }] 7 =
      (if stepC5w.critical.getD true then
        ([depFailResult 1 (stepIdAt 1 stepC5w) stepC5w.dependencies], 7)
       else
        (depFailResult 1 (stepIdAt 1 stepC5w) stepC5w.dependencies ::
           (run_steps_aux failAct 2 [stepC5post]
             ([{ step_index := some 0, step_id := some ("a"), success := false }] ++
              [depFailResult 1 (stepIdAt 1 stepC5w) stepC5w.dependencies]) 7).1,
         (run_steps_aux failAct 2 [stepC5post]
           ([{ step_index := some 0, step_id := some ("a"), success := false }] ++
            [depFailResult 1 (stepIdAt 1 stepC5w) stepC5w.dependencies]) 7).2)) ∧
    (depFailResult 1 (stepIdAt 1 stepC5w) stepC5w.dependencies).success = false ∧
    (depFailResult 1 (stepIdAt 1 stepC5w) stepC5w.dependencies).attempt = none ∧
    (depFailResult 1 (stepIdAt 1 stepC5w) stepC5w.dependencies).attempts = none ∧
    (depFailResult 1 (stepIdAt 1 stepC5w) stepC5w.dependencies).execution_time = 0 ∧
    (depFailResult 1 (stepIdAt 1 stepC5w) stepC5w.dependencies).error =
      some ("Step dependencies not met: " ++ pyStrListRepr stepC5w.dependencies) :=
  C5_amended failAct 1 [{ step_index := some 0, step_id := some ("a"), success := false }]
    7 stepC5w [stepC5post] "a" (by decide) (by decide)

/-! C2: no submission-time dependency validation -/

/-- The step with an unknown dependency id used by the C2 pieces. -/
def stepC2 : Step := { action_type := "click", dependencies := ["ghost"] }

/-- Workflow used by the C2 counterexample: its only step depends on an id
that belongs to no step of the definition. -/
def wfC2 : Workflow := { id := "w2", name := "wf", actions := [stepC2] }

/-- Whether `execute_workflow` returned normally. -/
def isOkRun (p : WorkflowExecutor × Except String WorkflowResult) : Bool :=
  match p.2 with
  | .ok _ => true
  | .error _ => false

/-- C2: the claim says a definition with an unknown dependency id is rejected
synchronously with a validation error, before any run registers or executes.
On the code the run executes normally (no error is raised), the violation
surfaces as a mid-run dependency failure recorded in the step results, and
the completed run is stored. -/
theorem C2_counterexample :
    isOkRun (execute_workflow okAct execInit wfC2 0 0) = true ∧
    (okStepResults (execute_workflow okAct execInit wfC2 0 0)).map (fun r => r.error) =
      [some ("Step dependencies not met: " ++ pyStrListRepr ["ghost"])] ∧
    (alGet ("w2") (execute_workflow okAct execInit wfC2 0 0).1.workflow_results).isSome =
      true := by
  decide

/-- C2 (amended): no dependency-id validation happens at submission: for
every initialized executor and workflow whose first step has a non-empty
dependency list (so in particular an unknown id — nothing has executed yet),
`execute_workflow` raises no error, the first recorded step result is the
synthesized mid-run dependency denial, and the run registers, executes and
stores its result under the workflow id. -/
theorem C2_amended (act : Nat → Nat → Except String ℚ) (self : WorkflowExecutor)
    (wf : Workflow) (t0 t1 : ℚ) (s : Step) (rest : List Step)
    (hin : self.is_initialized = true)
    (hact : wf.actions = s :: rest)
    (hdep : s.dependencies ≠ []) :
    (∀ e, (execute_workflow act self wf t0 t1).2 ≠ Except.error e) ∧
    (okStepResults (execute_workflow act self wf t0 t1)).head? =
      some (depFailResult 0 (stepIdAt 0 s) s.dependencies) ∧
    alGet wf.id (execute_workflow act self wf t0 t1).1.workflow_results =
      some (workflowResultOf act wf t0 t1) := by
  rw [execute_workflow_eq_ok act self wf t0 t1 hin]
  refine ⟨fun e h => Except.noConfusion h, ?_, alGet_insert_self _ _ _⟩
  have hchk : check_step_dependencies s [] = false := by
    unfold check_step_dependencies
    rw [List.all_eq_false]
    obtain ⟨d, hdm⟩ := List.exists_mem_of_ne_nil s.dependencies hdep
    exact ⟨d, hdm, by simp [completed_step_ids]⟩
  show (workflowResultOf act wf t0 t1).step_results.head? = _
  have hsr : (workflowResultOf act wf t0 t1).step_results =
      (run_steps act wf.actions).1 := rfl
  rw [hsr, hact]
  unfold run_steps
  rw [run_steps_aux_cons, if_neg (by simp [hchk])]
  by_cases hcrit : s.critical.getD true = true
  · rw [if_pos hcrit]
    rfl
  · rw [if_neg hcrit]
    rfl

/-- C2 witness: the amended statement instantiated at the concrete
single-step workflow with unknown dependency id `"ghost"`. -/
theorem C2_witness :
    (okStepResults (execute_workflow okAct execInit wfC2 0 0)).head? =
      some (depFailResult 0 (stepIdAt 0 stepC2) stepC2.dependencies) :=
  (C2_amended okAct execInit wfC2 0 0 stepC2 [] rfl rfl (by decide)).2.1

/-! C6: success rate and threshold -/

/-- C6: for every completed run (a normal `execute_workflow` return), the
returned result satisfies `success_rate = successful_steps / total_steps`
over exactly the recorded step results (0 when there are none), and
`success` holds iff `success_rate ≥ 0.8`, threshold inclusive. -/
theorem C6_theorem (act : Nat → Nat → Except String ℚ) (self : WorkflowExecutor)
    (wf : Workflow) (t0 t1 : ℚ) (st : WorkflowExecutor) (r : WorkflowResult)
    (h : execute_workflow act self wf t0 t1 = (st, Except.ok r)) :
    r.total_steps = r.step_results.length ∧
    r.successful_steps = (r.step_results.filter (fun x => x.success)).length ∧
    r.success_rate = (if r.step_results.length > 0
      then (r.successful_steps : ℚ) / (r.step_results.length : ℚ) else 0) ∧
    ((r.success = true) ↔ (0.8 : ℚ) ≤ r.success_rate) := by
  by_cases hin : self.is_initialized = true
  · rw [execute_workflow_eq_ok act self wf t0 t1 hin, Prod.mk.injEq] at h
    obtain ⟨h1, h2⟩ := h
    injection h2 with h2
    subst h2
    refine ⟨rfl, rfl, rfl, ?_⟩
    exact decide_eq_true_iff
  · have hf : self.is_initialized = false := by simpa using hin
    rw [execute_workflow_eq_error act self wf t0 t1 hf, Prod.mk.injEq] at h
    exact absurd h.2 (fun hc => Except.noConfusion hc)

/-- The 5-step workflow of the C6 witness: step index 2 is non-critical and
permanently failing, every other step succeeds. -/
def wfC6 : Workflow :=
  { id := "w6", name := "wf",
    actions :=
      [{ action_type := "a" }, { action_type := "b" },
       { action_type := "c", critical := some false,
         retry_policy := { max_retries := some 0 } },
       { action_type := "d" }, { action_type := "e" }] }

/-- Action oracle of the C6 witness: fails exactly at step index 2. -/
def actC6 : Nat → Nat → Except String ℚ :=
  fun i _ => if i = 2 then Except.error ("boom") else Except.ok 0

/-- The C6 witness run. -/
def runC6 : WorkflowExecutor × Except String WorkflowResult :=
  execute_workflow actC6 execInit wfC6 0 0

/-- The result the C6 witness run returns. -/
def rC6 : WorkflowResult :=
  match runC6.2 with
  | .ok r => r
  | .error _ =>
      { workflow_id := "", workflow_name := "", success := false, success_rate := 0,
        total_steps := 0, successful_steps := 0, execution_time := 0,
        step_results := [], start_time := 0, end_time := 0, retry_attempts := 0 }

/-- C6 witness: the theorem instantiated at the 5-step run with 4 successes,
whose success rate is exactly the inclusive threshold 0.8 and which therefore
counts as an overall success. -/
theorem C6_witness :
    (rC6.total_steps = rC6.step_results.length ∧
     rC6.successful_steps = (rC6.step_results.filter (fun x => x.success)).length ∧
     rC6.success_rate = (if rC6.step_results.length > 0
       then (rC6.successful_steps : ℚ) / (rC6.step_results.length : ℚ) else 0) ∧
     ((rC6.success = true) ↔ (0.8 : ℚ) ≤ rC6.success_rate)) ∧
    rC6.success_rate = 4/5 ∧ rC6.success = true := by
  have hrate : rC6.success_rate = (4 : ℚ)/5 := by
    show (((4 : Nat) : ℚ) / ((5 : Nat) : ℚ)) = (4 : ℚ)/5
    norm_num
  have hsucc : rC6.success = true := by
    show decide ((0.8 : ℚ) ≤ rC6.success_rate) = true
    rw [decide_eq_true_iff, hrate]
    norm_num
  exact ⟨C6_theorem actC6 execInit wfC6 0 0 runC6.1 rC6 rfl, hrate, hsucc⟩

/-! C7: status payloads -/

/-- Workflow of the C7 counterexample: its single critical step fails, so the
stored result has `success = false` — the run is terminally failed. -/
def wfC7 : Workflow :=
  { id := "w7", name := "wf",
    actions := [{ action_type := "x", retry_policy := { max_retries := some 0 } }] }

/-- Executor state after the failed C7 run completed. -/
def stC7 : WorkflowExecutor := (execute_workflow failAct execInit wfC7 0 0).1

/-- C7: the claim says a completed-store payload reports status `"failed"`
for a failed run.  On the code the completed branch always writes the literal
`"completed"`: the stored failed run (success = false) is reported with
status `"completed"`, never `"failed"`. -/
theorem C7_counterexample :
    (get_workflow_status stC7 ("w7")).map (fun p => p.status) = some ("completed") ∧
    (get_workflow_status stC7 ("w7")).map (fun p => p.success) = some (some false) ∧
    ¬ ((get_workflow_status stC7 ("w7")).map (fun p => p.status) = some ("failed")) := by
  have h3 : get_workflow_status stC7 ("w7") =
      some { workflow_id := "w7", status := "completed",
             success := some (workflowResultOf failAct wfC7 0 0).success,
             execution_time := some (workflowResultOf failAct wfC7 0 0).execution_time } := rfl
  have hsucc : (workflowResultOf failAct wfC7 0 0).success = false := by
    show decide ((0.8 : ℚ) ≤ (((0 : Nat) : ℚ) / ((2 : Nat) : ℚ))) = false
    rw [decide_eq_false_iff_not]
    norm_num
  rw [h3]
  refine ⟨rfl, ?_, by simp⟩
  show some (some (workflowResultOf failAct wfC7 0 0).success) = some (some false)
  rw [hsucc]

/-- C7 (amended): `get_workflow_status` returns the running payload (with
start_time, current_step and total_steps) when the id is in the active
registry; otherwise, when the id is in the completed store, a payload whose
status is always the literal `"completed"` — regardless of the stored
outcome — together with success and execution_time; and `none` when the id is
in neither (in particular a cancelled run, which is deleted outright, reports
not-found). -/
theorem C7_amended (self : WorkflowExecutor) (wid : String) :
    (∀ ctx, alGet wid self.active_workflows = some ctx →
        get_workflow_status self wid =
          some { workflow_id := wid, status := "running",
                 start_time := some ctx.start_time,
                 current_step := some ctx.current_step,
                 total_steps := some ctx.workflow.actions.length }) ∧
    (∀ res, alGet wid self.active_workflows = none →
        alGet wid self.workflow_results = some res →
        get_workflow_status self wid =
          some { workflow_id := wid, status := "completed",
                 success := some res.success,
                 execution_time := some res.execution_time }) ∧
    (alGet wid self.active_workflows = none →
        alGet wid self.workflow_results = none →
        get_workflow_status self wid = none) := by
  refine ⟨?_, ?_, ?_⟩
  · intro ctx h
    unfold get_workflow_status
    rw [h]
  · intro res h1 h2
    unfold get_workflow_status
    rw [h1, h2]
  · intro h1 h2
    unfold get_workflow_status
    rw [h1, h2]

/-- Run context of the C7 witness. -/
def ctxC7w : WorkflowExecutionContext :=
  { workflow_id := "a", workflow := { id := "a", name := "n" }, start_time := 3 }

/-- Executor of the C7 witness, with one active run. -/
def stC7w : WorkflowExecutor :=
  { active_workflows := [("a", ctxC7w)], is_initialized := true }

/-- C7 witness: the amended statement at a concrete active run and at an
empty executor. -/
theorem C7_witness :
    get_workflow_status stC7w ("a") =
      some { workflow_id := "a", status := "running",
             start_time := some ctxC7w.start_time,
             current_step := some ctxC7w.current_step,
             total_steps := some ctxC7w.workflow.actions.length } ∧
    get_workflow_status ({} : WorkflowExecutor) "b" = none :=
  ⟨(C7_amended stC7w ("a")).1 ctxC7w rfl, (C7_amended {} ("b")).2.2 rfl rfl⟩

/-! C8: terminal transitions and registry consistency -/

/-- Status seen after a run finalized: active entry removed, result stored. -/
theorem get_status_after_finalize (self : WorkflowExecutor) (wid : String)
    (ctx : WorkflowExecutionContext) (wr : WorkflowResult) :
    get_workflow_status
      { self with
        active_workflows := alRemove wid (alInsert wid ctx self.active_workflows),
        workflow_results := alInsert wid wr self.workflow_results } wid =
      some { workflow_id := wid, status := "completed",
             success := some wr.success, execution_time := some wr.execution_time } := by
  have h1 : alGet wid (alRemove wid (alInsert wid ctx self.active_workflows)) = none :=
    alGet_remove_self _ _
  have h2 : alGet wid (alInsert wid wr self.workflow_results) = some wr :=
    alGet_insert_self _ _ _
  simp only [get_workflow_status, h1, h2]

/-- C8: on any terminal transition of `execute_workflow` — a normal return or
a raise — the workflow id is not left in the active registry; on a normal
return the result is persisted under the workflow id and a subsequent status
query reports the completed payload agreeing with the stored result (the raise
happens before the run context is created, so the state is unchanged). -/
theorem C8_theorem (act : Nat → Nat → Except String ℚ) (self : WorkflowExecutor)
    (wf : Workflow) (t0 t1 : ℚ) :
    (∀ st r, execute_workflow act self wf t0 t1 = (st, Except.ok r) →
        alGet wf.id st.active_workflows = none ∧
        alGet wf.id st.workflow_results = some r ∧
        get_workflow_status st wf.id =
          some { workflow_id := wf.id, status := "completed",
                 success := some r.success, execution_time := some r.execution_time }) ∧
    (∀ st e, execute_workflow act self wf t0 t1 = (st, Except.error e) → st = self) := by
  constructor
  · intro st r h
    by_cases hin : self.is_initialized = true
    · rw [execute_workflow_eq_ok act self wf t0 t1 hin, Prod.mk.injEq] at h
      obtain ⟨h1, h2⟩ := h
      injection h2 with h2
      subst h2
      subst h1
      exact ⟨alGet_remove_self _ _, alGet_insert_self _ _ _,
        get_status_after_finalize self wf.id _ _⟩
    · have hf : self.is_initialized = false := by simpa using hin
      rw [execute_workflow_eq_error act self wf t0 t1 hf, Prod.mk.injEq] at h
      exact absurd h.2 (fun hc => Except.noConfusion hc)
  · intro st e h
    by_cases hin : self.is_initialized = true
    · rw [execute_workflow_eq_ok act self wf t0 t1 hin, Prod.mk.injEq] at h
      exact absurd h.2 (fun hc => Except.noConfusion hc)
    · have hf : self.is_initialized = false := by simpa using hin
      rw [execute_workflow_eq_error act self wf t0 t1 hf, Prod.mk.injEq] at h
      exact h.1.symm

/-- Workflow of the C8 witness. -/
def wfC8 : Workflow := { id := "w8", name := "wf", actions := [{ action_type := "a" }] }

/-- The C8 witness run. -/
def runC8 : WorkflowExecutor × Except String WorkflowResult :=
  execute_workflow okAct execInit wfC8 0 0

/-- The result of the C8 witness run. -/
def rC8 : WorkflowResult :=
  match runC8.2 with
  | .ok r => r
  | .error _ =>
      { workflow_id := "", workflow_name := "", success := false, success_rate := 0,
        total_steps := 0, successful_steps := 0, execution_time := 0,
        step_results := [], start_time := 0, end_time := 0, retry_attempts := 0 }

/-- C8 witness: the ok-branch conclusions at a completed concrete run. -/
theorem C8_witness :
    alGet ("w8") runC8.1.active_workflows = none ∧
    alGet ("w8") runC8.1.workflow_results = some rC8 ∧
    get_workflow_status runC8.1 ("w8") =
      some { workflow_id := "w8", status := "completed",
             success := some rC8.success, execution_time := some rC8.execution_time } :=
  (C8_theorem okAct execInit wfC8 0 0).1 runC8.1 rC8 rfl

/-! C9: cancellation is permanent for a run -/

/-- The registry writes a run performs never re-insert its id into the active
registry: if the id is absent it stays absent. -/
theorem apply_run_ops_active_none (wid : String) (ops : List RunOp) :
    ∀ self : WorkflowExecutor, alGet wid self.active_workflows = none →
      alGet wid (apply_run_ops wid self ops).active_workflows = none := by
  induction ops with
  | nil => intro self h; exact h
  | cons op ops ih =>
      intro self h
      unfold apply_run_ops
      apply ih
      cases op with
      | finalize wr => exact alGet_remove_self _ _
      | cleanupError => exact alGet_remove_self _ _

/-- C9: `cancel_workflow` returns whether the id was in the active registry
and removes it; afterwards, under any sequence of the registry writes the
cancelled run itself can still perform, a status query for that id never
reports `"running"`. -/
theorem C9_theorem (self : WorkflowExecutor) (wid : String) :
    (cancel_workflow self wid).2 = (alGet wid self.active_workflows).isSome ∧
    alGet wid (cancel_workflow self wid).1.active_workflows = none ∧
    (∀ ops p,
        get_workflow_status (apply_run_ops wid (cancel_workflow self wid).1 ops) wid =
          some p →
        p.status ≠ "running") := by
  have hnone : alGet wid (cancel_workflow self wid).1.active_workflows = none := by
    unfold cancel_workflow
    by_cases hc : (alGet wid self.active_workflows).isSome = true
    · rw [if_pos hc]
      exact alGet_remove_self _ _
    · rw [if_neg hc]
      have hf : (alGet wid self.active_workflows).isSome = false := by simpa using hc
      exact (alGet_none_iff_isSome_false wid self.active_workflows).1 hf
  refine ⟨?_, hnone, ?_⟩
  · unfold cancel_workflow
    by_cases hc : (alGet wid self.active_workflows).isSome = true
    · rw [if_pos hc]
      exact hc.symm
    · rw [if_neg hc]
      have hf : (alGet wid self.active_workflows).isSome = false := by simpa using hc
      exact hf.symm
  · intro ops p hp
    have hact := apply_run_ops_active_none wid ops _ hnone
    unfold get_workflow_status at hp
    rw [hact] at hp
    cases hres : alGet wid (apply_run_ops wid (cancel_workflow self wid).1 ops).workflow_results with
    | none =>
        rw [hres] at hp
        exact absurd hp (fun hc => Option.noConfusion hc)
    | some wr =>
        rw [hres] at hp
        injection hp with hp
        subst hp
        intro hc
        exact absurd hc (by simp)

/-- Run context of the C9 witness. -/
def ctxC9w : WorkflowExecutionContext :=
  { workflow_id := "w", workflow := { id := "w", name := "n" }, start_time := 1 }

/-- Executor of the C9 witness, with run `"w"` active. -/
def stC9w : WorkflowExecutor :=
  { active_workflows := [("w", ctxC9w)], is_initialized := true }

/-- Terminal result the cancelled C9 run later stores anyway. -/
def wrC9 : WorkflowResult :=
  { workflow_id := "w", workflow_name := "n", success := false, success_rate := 0,
    total_steps := 0, successful_steps := 0, execution_time := 0,
    step_results := [], start_time := 1, end_time := 1, retry_attempts := 0 }

/-- Status payload observed for `"w"` after cancellation and the run's own
finalization. -/
def pC9w : StatusPayload :=
  { workflow_id := "w", status := "completed",
    success := some wrC9.success, execution_time := some wrC9.execution_time }

/-- C9 witness: cancelling the active run returns true, removes it, and after
the run's own finalize write the status query reports a non-running payload. -/
theorem C9_witness :
    (cancel_workflow stC9w ("w")).2 = (alGet ("w") stC9w.active_workflows).isSome ∧
    alGet ("w") (cancel_workflow stC9w ("w")).1.active_workflows = none ∧
    pC9w.status ≠ "running" :=
  ⟨(C9_theorem stC9w ("w")).1, (C9_theorem stC9w ("w")).2.1,
   (C9_theorem stC9w ("w")).2.2 [RunOp.finalize wrC9] pC9w rfl⟩

/-! C10: execution on an uninitialized executor -/

/-- C10: when the executor is not initialized, `execute_workflow` raises the
ValueError before creating a run context: it returns the raised message and
the executor state — in particular both registries — exactly unchanged. -/
theorem C10_theorem (act : Nat → Nat → Except String ℚ) (self : WorkflowExecutor)
    (wf : Workflow) (t0 t1 : ℚ) (h : self.is_initialized = false) :
    execute_workflow act self wf t0 t1 =
      (self, Except.error ("Workflow executor not initialized")) ∧
    (execute_workflow act self wf t0 t1).1.active_workflows = self.active_workflows ∧
    (execute_workflow act self wf t0 t1).1.workflow_results = self.workflow_results := by
  have he := execute_workflow_eq_error act self wf t0 t1 h
  rw [he]
  exact ⟨rfl, rfl, rfl⟩

/-- An executor on which `initialize` has not run. -/
def stUninit : WorkflowExecutor := {}

/-- Workflow of the C10 witness. -/
def wfC10 : Workflow := { id := "w10", name := "wf", actions := [{ action_type := "a" }] }

/-- C10 witness: the theorem at a concrete uninitialized executor. -/
theorem C10_witness :
    execute_workflow okAct stUninit wfC10 0 0 =
      (stUninit, Except.error ("Workflow executor not initialized")) ∧
    (execute_workflow okAct stUninit wfC10 0 0).1.active_workflows =
      stUninit.active_workflows ∧
    (execute_workflow okAct stUninit wfC10 0 0).1.workflow_results =
      stUninit.workflow_results :=
  C10_theorem okAct stUninit wfC10 0 0 rfl
